import Mathlib

/-!
Verification of the echopype multi-file combination engine and the
logical dataset pointer, as implemented in
`echopype/convert/convert_combine.py`, `echopype/convert/set_groups_ek60.py`
and `echopype/process/echodata.py`.

The Python functions are shallowly embedded: the sequence of
`io.save_file` calls issued by `perform_combination` becomes a pure trace
of write events; `coerce_type`, `assemble_combined_provenance`,
`EchoDataBase._update_file_list`, `EchoDataBase.__init__` and the
property getters become pure (or `Except`-valued) Lean functions; the
`np.datetime64` to float-seconds conversion in the `set_groups_*`
builders becomes exact rational arithmetic composed with a
round-to-nearest-binary64 model.
-/

namespace Echopype

/-! ## Write trace of `perform_combination` -/

/-- Mode string passed to `io.save_file`: `'w'` (create) or `'a'` (append). -/
inductive Mode where
  | w
  | a
deriving DecidableEq, Repr

/-- One `io.save_file` call made by `perform_combination`: the target group
(`none` is the top level), the mode, and the chunk sizes applied by
`.chunk` on the dataset just before saving (empty when no `.chunk` call
is made for that group). -/
structure WriteEvent where
  group : Option String
  mode : Mode
  chunks : List (String × Nat)
deriving DecidableEq, Repr

/-- The module-level dict `DEFAULT_CHUNK_SIZE` of `convert_combine.py`. -/
def DEFAULT_CHUNK_SIZE : List (String × Nat) :=
  [("range_bin", 25000), ("ping_time", 2500)]

/-- Python dict lookup `d[k]` restricted to the keys that are present
(the source only ever looks up existing keys of `DEFAULT_CHUNK_SIZE`). -/
def dget (d : List (String × Nat)) (k : String) : Nat :=
  ((d.find? (fun p => p.1 = k)).map Prod.snd).getD 0

/-- The ordered trace of `io.save_file` calls issued by
`perform_combination(sonar_model, input_paths, output_path, engine)` in
`convert_combine.py`, lines 56-142; faithful to the source order:
top level (mode `'w'`), then `Sonar`, `Provenance`, `Beam`,
`Environment`, the model-dependent `Platform` branch, the
model-dependent `Platform/NMEA` branch, and `Vendor`, all with mode
`'a'`. -/
def combineWrites (sonar_model : String) : List WriteEvent :=
  [⟨none, Mode.w, []⟩,
   ⟨some "Sonar", Mode.a, []⟩,
   ⟨some "Provenance", Mode.a, []⟩,
   ⟨some "Beam", Mode.a,
     [("range_bin", dget DEFAULT_CHUNK_SIZE "range_bin"),
      ("ping_time", dget DEFAULT_CHUNK_SIZE "ping_time")]⟩,
   ⟨some "Environment", Mode.a,
     [("ping_time", dget DEFAULT_CHUNK_SIZE "ping_time")]⟩]
  ++ (if sonar_model = "AZFP" then
        [⟨some "Platform", Mode.a, []⟩]
      else if sonar_model = "EK80" ∨ sonar_model = "EA640" then
        [⟨some "Platform", Mode.a,
          [("location_time", dget DEFAULT_CHUNK_SIZE "ping_time"),
           ("mru_time", dget DEFAULT_CHUNK_SIZE "ping_time")]⟩]
      else if sonar_model = "EK60" then
        [⟨some "Platform", Mode.a,
          [("location_time", dget DEFAULT_CHUNK_SIZE "ping_time"),
           ("ping_time", dget DEFAULT_CHUNK_SIZE "ping_time")]⟩]
      else [])
  ++ (if sonar_model = "EK60" ∨ sonar_model = "EK80" ∨ sonar_model = "EA640" then
        [⟨some "Platform/NMEA", Mode.a,
          [("location_time", dget DEFAULT_CHUNK_SIZE "ping_time")]⟩]
      else [])
  ++ [⟨some "Vendor", Mode.a, []⟩]

/-! ## The inner coerce_type of perform_combination -/

/-- A string-typed xarray variable: its flattened list of string values. -/
abbrev StrVar := List String

/-- numpy `astype` to a fixed-width little-endian unicode dtype of width
`n` (`<U10`, `<U50`): re-encodes every element, truncating strings
longer than `n` characters (numpy truncates, it never pads). -/
def astypeU (n : Nat) (v : StrVar) : StrVar := v.map (fun s => s.take n)

/-- The string-typed variables of a Beam dataset, as an association list
from variable name to values. -/
structure BeamDS where
  vars : List (String × StrVar)
deriving DecidableEq, Repr

/-- First-match association-list lookup. -/
def lookupVar : List (String × StrVar) → String → Option StrVar
  | [], _ => none
  | p :: t, k => if p.1 = k then some p.2 else lookupVar t k

/-- Python `ds[k]`: look up variable `k`. -/
def dsGet (ds : BeamDS) (k : String) : Option StrVar :=
  lookupVar ds.vars k

/-- Python `ds[k] = v`: replace the value of variable `k`, keeping the
variable order. -/
def dsSet (ds : BeamDS) (k : String) (v : StrVar) : BeamDS :=
  ⟨ds.vars.map (fun p => if p.1 = k then (p.1, v) else p)⟩

/-- Python exceptions raised by the embedded fragments. -/
inductive PyErr where
  | keyError (k : String)
  | valueError (msg : String)
  | attributeError (msg : String)
deriving DecidableEq, Repr

deriving instance DecidableEq for Except

/-- The inner function `coerce_type(ds, group)` of `perform_combination`
(a closure over `sonar_model`), `convert_combine.py` lines 60-67: on the
Beam group, EK80 re-encodes `transceiver_software_version` as `<U10` and
`channel_id` as `<U50`; EK60 re-encodes `gpt_software_version` as `<U10`
and `channel_id` as `<U50`; every other model leaves the dataset
untouched. Reading an absent variable raises `KeyError`. -/
def coerce_type (sonar_model : String) (ds : BeamDS) (group : String) :
    Except PyErr BeamDS :=
  if group = "Beam" then
    if sonar_model = "EK80" then
      match dsGet ds "transceiver_software_version" with
      | none => .error (.keyError "transceiver_software_version")
      | some v =>
        let ds1 := dsSet ds "transceiver_software_version" (astypeU 10 v)
        match dsGet ds1 "channel_id" with
        | none => .error (.keyError "channel_id")
        | some c => .ok (dsSet ds1 "channel_id" (astypeU 50 c))
    else if sonar_model = "EK60" then
      match dsGet ds "gpt_software_version" with
      | none => .error (.keyError "gpt_software_version")
      | some v =>
        let ds1 := dsSet ds "gpt_software_version" (astypeU 10 v)
        match dsGet ds1 "channel_id" with
        | none => .error (.keyError "channel_id")
        | some c => .ok (dsSet ds1 "channel_id" (astypeU 50 c))
    else .ok ds
  else .ok ds

/-- Reading back a variable after a `ds[k] = v` style update. -/
theorem dsGet_dsSet (ds : BeamDS) (k k2 : String) (v : StrVar) :
    dsGet (dsSet ds k v) k2 =
      if k2 = k then (dsGet ds k2).map (fun _ => v) else dsGet ds k2 := by
  obtain ⟨l⟩ := ds
  simp only [dsGet, dsSet]
  induction l with
  | nil => simp [lookupVar]
  | cons p t ih =>
    obtain ⟨a, b⟩ := p
    by_cases hak : a = k
    · subst hak
      by_cases h2 : a = k2
      · subst h2
        simp [lookupVar]
      · have ha2 : ¬k2 = a := fun h => h2 h.symm
        simp [lookupVar, h2, ha2, ih]
    · by_cases h2 : a = k2
      · subst h2
        have hk2k : ¬a = k := hak
        simp [lookupVar, hak, hk2k]
      · have ha2 : ¬k2 = a := fun h => h2 h.symm
        simp [lookupVar, hak, h2, ha2, ih]

/-! ## The Provenance synthesizer -/

/-- An attribute value: a plain string or a list of path strings. -/
inductive AttrVal where
  | s (v : String)
  | slist (v : List String)
deriving DecidableEq, Repr

/-- The module-level `ECHOPYPE_VERSION = get_versions()['version']`.
Modelled from the spec: `_version.py` (the versioneer output providing
`get_versions`) is outside the combination core; the spec only requires
that some tool version string is recorded. -/
def ECHOPYPE_VERSION : String := "0.4.x"

/-- A naive UTC wall-clock datetime, as returned by `dt.utcnow()`. -/
structure UtcTime where
  year : Nat
  month : Nat
  day : Nat
  hour : Nat
  minute : Nat
  second : Nat
deriving DecidableEq, Repr

/-- Zero-padded two-digit decimal field of `datetime.isoformat`. -/
def pad2 (n : Nat) : String := if n < 10 then "0" ++ toString n else toString n

/-- Zero-padded four-digit year field of `datetime.isoformat`. -/
def pad4 (n : Nat) : String :=
  if n < 10 then "000" ++ toString n
  else if n < 100 then "00" ++ toString n
  else if n < 1000 then "0" ++ toString n
  else toString n

/-- Python `datetime.isoformat(timespec='seconds')`: the
YYYY-MM-DDTHH:MM:SS rendering, truncated to second precision. -/
def isoformatSeconds (t : UtcTime) : String :=
  pad4 t.year ++ "-" ++ pad2 t.month ++ "-" ++ pad2 t.day ++ "T" ++
  pad2 t.hour ++ ":" ++ pad2 t.minute ++ ":" ++ pad2 t.second

/-- An in-memory dataset carrying only attributes, as built by
`xr.Dataset().assign_attrs(prov_dict)`: no data variables, attributes in
insertion order of the dict literal. -/
structure AttrOnlyDS where
  vars : List String
  attrs : List (String × AttrVal)
deriving DecidableEq, Repr

/-- `assemble_combined_provenance(input_paths)` of `convert_combine.py`
lines 47-53, with the `dt.utcnow()` call made explicit as the `now`
argument: an empty dataset whose attributes are the tool name, the tool
version, the UTC creation time in second-precision ISO format suffixed
with the UTC marker `Z`, and the source path list exactly as given. -/
def assemble_combined_provenance (now : UtcTime) (input_paths : List String) :
    AttrOnlyDS :=
  { vars := [],
    attrs := [("conversion_software_name", AttrVal.s "echopype"),
              ("conversion_software_version", AttrVal.s ECHOPYPE_VERSION),
              ("conversion_time", AttrVal.s (isoformatSeconds now ++ "Z")),
              ("src_filenames", AttrVal.slist input_paths)] }

/-! ## The AZFP Platform merge -/

/-- An AZFP Platform group: group attributes and variables, with no time
coordinate axis. -/
structure PlatDS where
  attrs : List (String × AttrVal)
  vars : List (String × List Int)
deriving DecidableEq, Repr

/-- Errors surfaced by the merge backend during a combine call. -/
inductive CombineError where
  | conflictingMetadata
  | emptyInput
deriving DecidableEq, Repr

/-- Modelled from the spec: the merge performed by
`xr.open_mfdataset(..., combine='nested', compat='identical')` in the
AZFP Platform branch of `perform_combination` (lines 107-110); the
xarray backend itself is an external collaborator. Under
`MergeIdenticalRequired`, merging succeeds with the shared group exactly
when all inputs are bit-identical, and fails with `ConflictingMetadata`
otherwise. -/
def open_mfdataset_identical : List PlatDS → Except CombineError PlatDS
  | [] => .error .emptyInput
  | d :: rest =>
      if rest.all (fun x => x = d) then .ok d else .error .conflictingMetadata

/-! ## The datetime normalizer of the group builders -/

/-- Microseconds from 1900-01-01T00:00:00 to 2100-01-01T00:00:00:
73049 days (200 years of 365 days plus 49 leap days over 1900..2099,
1900 not being a leap year and 2000 being one) of 86400 seconds each. -/
def microsUpper : ℕ := 6311433600000000

/-- The binade exponent of a positive rational: the largest `e` with
`2 ^ e ≤ q`. -/
def qexp (q : ℚ) : ℤ :=
  if q < (2 : ℚ) ^ ((Nat.log 2 q.num.natAbs : ℤ) - (Nat.log 2 q.den : ℤ)) then
    (Nat.log 2 q.num.natAbs : ℤ) - (Nat.log 2 q.den : ℤ) - 1
  else
    (Nat.log 2 q.num.natAbs : ℤ) - (Nat.log 2 q.den : ℤ)

/-- Round to the nearest IEEE binary64 value: the nearest rational of
the form `m * 2 ^ (e - 52)` with `m` a 53-bit significand. The inputs
in range stay far from subnormals and overflow, and a tie moves to a
neighbouring representable value either way, so the half-ulp error
bound proved below is exact for the hardware rounding. -/
def roundDouble (q : ℚ) : ℚ :=
  if q = 0 then 0
  else ((round (q * (2 : ℚ) ^ ((52 : ℤ) - qexp q)) : ℤ) : ℚ) * (2 : ℚ) ^ (qexp q - 52)

/-- The largest whole microsecond count whose seconds value stays below
`2 ^ 32`, reached at 2036-02-07T06:28:16. -/
def microsSafeUpper : ℕ := 4294967295999999

/-- The conversion applied by the group builders before writing
(`set_groups_ek60.py` lines 363-367):
`(ds.ping_time - np.datetime64(1900-01-01T00:00:00)) / np.timedelta64(1, s)`.
xarray coerces the `ping_time` coordinate to `datetime64[ns]`, so for an
input timestamp `t` microseconds after the epoch the subtraction yields
the exact int64 count of `1000 * t` nanoseconds, and the timedelta
division then casts that count to binary64 (the first rounding — the
count exceeds `2 ^ 53` for all but the first months of the range) and
performs a correctly rounded division by the exactly representable
`10 ^ 9` (the second rounding). -/
def normalizeTime (t : ℕ) : ℚ :=
  roundDouble (roundDouble (1000 * (t : ℚ)) / 10 ^ 9)

/-- The documented inverse transform: add the epoch offset back and
read the result at the timestamp resolution, i.e. the count of
microseconds nearest to the stored seconds value. -/
def denormalizeMicros (s : ℚ) : ℤ := round (s * 10 ^ 6)

/-- The binade exponent brackets its argument:
`2 ^ qexp q ≤ q < 2 ^ (qexp q + 1)` for positive `q`. -/
theorem qexp_bounds (q : ℚ) (hq : 0 < q) :
    (2 : ℚ) ^ qexp q ≤ q ∧ q < (2 : ℚ) ^ (qexp q + 1) := by
  have hnum : 0 < q.num := Rat.num_pos.mpr hq
  have hn0 : q.num.natAbs ≠ 0 := by
    have := Int.natAbs_pos.mpr (ne_of_gt hnum)
    omega
  have hd0 : q.den ≠ 0 := q.den_nz
  have h1 : (2 : ℕ) ^ Nat.log 2 q.num.natAbs ≤ q.num.natAbs :=
    Nat.pow_log_le_self 2 hn0
  have h2 : q.num.natAbs < 2 ^ (Nat.log 2 q.num.natAbs + 1) :=
    Nat.lt_pow_succ_log_self (by norm_num) _
  have h3 : (2 : ℕ) ^ Nat.log 2 q.den ≤ q.den := Nat.pow_log_le_self 2 hd0
  have h4 : q.den < 2 ^ (Nat.log 2 q.den + 1) :=
    Nat.lt_pow_succ_log_self (by norm_num) _
  have hcast : (q.num.natAbs : ℚ) = (q.num : ℚ) := by
    rw [Int.cast_natAbs]
    exact_mod_cast abs_of_pos hnum
  have hqe : q = (q.num.natAbs : ℚ) / (q.den : ℚ) := by
    rw [hcast, Rat.num_div_den]
  have hdenq : (0 : ℚ) < (q.den : ℚ) := by
    exact_mod_cast Nat.pos_of_ne_zero hd0
  set a := Nat.log 2 q.num.natAbs with ha
  set b := Nat.log 2 q.den with hb
  have hb1 : (2 : ℚ) ^ (a : ℤ) ≤ (q.num.natAbs : ℚ) := by
    rw [zpow_natCast]
    exact_mod_cast h1
  have hb2 : (q.num.natAbs : ℚ) < (2 : ℚ) ^ ((a : ℤ) + 1) := by
    have hcoe : ((a : ℤ) + 1) = ((a + 1 : ℕ) : ℤ) := by push_cast; ring
    rw [hcoe, zpow_natCast]
    exact_mod_cast h2
  have hb3 : (2 : ℚ) ^ (b : ℤ) ≤ (q.den : ℚ) := by
    rw [zpow_natCast]
    exact_mod_cast h3
  have hb4 : (q.den : ℚ) < (2 : ℚ) ^ ((b : ℤ) + 1) := by
    have hcoe : ((b : ℤ) + 1) = ((b + 1 : ℕ) : ℤ) := by push_cast; ring
    rw [hcoe, zpow_natCast]
    exact_mod_cast h4
  have hlow : (2 : ℚ) ^ ((a : ℤ) - b - 1) ≤ q := by
    have hstep : (2 : ℚ) ^ (a : ℤ) / (2 : ℚ) ^ ((b : ℤ) + 1) ≤
        (q.num.natAbs : ℚ) / (q.den : ℚ) := by
      gcongr
    calc (2 : ℚ) ^ ((a : ℤ) - b - 1)
        = (2 : ℚ) ^ (a : ℤ) / (2 : ℚ) ^ ((b : ℤ) + 1) := by
          have hexp : (a : ℤ) - b - 1 = (a : ℤ) - ((b : ℤ) + 1) := by ring
          rw [hexp, zpow_sub₀ (two_ne_zero)]
      _ ≤ (q.num.natAbs : ℚ) / (q.den : ℚ) := hstep
      _ = q := hqe.symm
  have hhigh : q < (2 : ℚ) ^ ((a : ℤ) - b + 1) := by
    have hstep : (q.num.natAbs : ℚ) / (q.den : ℚ) <
        (2 : ℚ) ^ ((a : ℤ) + 1) / (2 : ℚ) ^ (b : ℤ) := by
      apply div_lt_div₀ hb2 hb3 (by positivity) (by positivity)
    calc q = (q.num.natAbs : ℚ) / (q.den : ℚ) := hqe
      _ < (2 : ℚ) ^ ((a : ℤ) + 1) / (2 : ℚ) ^ (b : ℤ) := hstep
      _ = (2 : ℚ) ^ ((a : ℤ) - b + 1) := by
          have hexp : (a : ℤ) - b + 1 = ((a : ℤ) + 1) - b := by ring
          rw [hexp, zpow_sub₀ (two_ne_zero)]
  rw [qexp]
  split
  · rename_i h
    refine ⟨hlow, ?_⟩
    have hcoe : (a : ℤ) - b - 1 + 1 = (a : ℤ) - b := by ring
    rw [hcoe]
    exact h
  · rename_i h
    exact ⟨not_lt.mp h, hhigh⟩

/-- Rounding to binary64 moves a positive rational by at most half an
ulp of its binade. -/
theorem roundDouble_err (q : ℚ) (hq : 0 < q) :
    |roundDouble q - q| ≤ (2 : ℚ) ^ (qexp q - 53) := by
  have hne : q ≠ 0 := ne_of_gt hq
  obtain ⟨e, he⟩ : ∃ e, qexp q = e := ⟨_, rfl⟩
  rw [roundDouble, if_neg hne, he]
  set x := q * (2 : ℚ) ^ ((52 : ℤ) - e) with hx
  have hxq : x * (2 : ℚ) ^ (e - 52) = q := by
    rw [hx, mul_assoc, ← zpow_add₀ (two_ne_zero : (2 : ℚ) ≠ 0)]
    norm_num
  calc |((round x : ℤ) : ℚ) * (2 : ℚ) ^ (e - 52) - q|
      = |(((round x : ℤ) : ℚ) - x) * (2 : ℚ) ^ (e - 52)| := by
        rw [sub_mul, hxq]
    _ = |((round x : ℤ) : ℚ) - x| * (2 : ℚ) ^ (e - 52) := by
        rw [abs_mul,
          abs_of_pos (show (0 : ℚ) < (2 : ℚ) ^ (e - 52) by positivity)]
    _ ≤ (1 / 2) * (2 : ℚ) ^ (e - 52) := by
        have hhalf : |((round x : ℤ) : ℚ) - x| ≤ 1 / 2 := by
          rw [abs_sub_comm]
          exact abs_sub_round x
        exact mul_le_mul_of_nonneg_right hhalf (by positivity)
    _ = (2 : ℚ) ^ (e - 53) := by
        have hexp : e - 52 = e - 53 + 1 := by ring
        rw [hexp, zpow_add_one₀ (two_ne_zero : (2 : ℚ) ≠ 0)]
        ring

/-- A positive rational below a power of two has a smaller binade. -/
theorem qexp_lt_of_lt (q : ℚ) (hq : 0 < q) (k : ℤ) (h : q < (2 : ℚ) ^ k) :
    qexp q < k := by
  have h1 := (qexp_bounds q hq).1
  have h2 : (2 : ℚ) ^ qexp q < (2 : ℚ) ^ k := lt_of_le_of_lt h1 h
  exact (zpow_lt_zpow_iff_right₀ (by norm_num : (1 : ℚ) < 2)).mp h2

/-- The binade exponent is determined by any bracketing pair of
inequalities. -/
theorem qexp_eq_of (q : ℚ) (hq : 0 < q) (e : ℤ) (h1 : (2 : ℚ) ^ e ≤ q)
    (h2 : q < (2 : ℚ) ^ (e + 1)) : qexp q = e := by
  rcases qexp_bounds q hq with ⟨b1, b2⟩
  by_contra hne
  rcases lt_or_gt_of_ne hne with hlt | hgt
  · have hle : qexp q + 1 ≤ e := by omega
    have hpow : (2 : ℚ) ^ (qexp q + 1) ≤ (2 : ℚ) ^ e :=
      zpow_le_zpow_right₀ (by norm_num) hle
    linarith
  · have hle : e + 1 ≤ qexp q := by omega
    have hpow : (2 : ℚ) ^ (e + 1) ≤ (2 : ℚ) ^ qexp q :=
      zpow_le_zpow_right₀ (by norm_num) hle
    linarith

/-! ## The logical dataset pointer (echodata.py) -/

/-- A user-supplied path specification for a logical dataset pointer:
a single string, an explicit list of paths, `None`, or a Python value of
any other type. -/
inductive PathSpec where
  | pstr (s : String)
  | plist (ps : List String)
  | pnone
  | pother
deriving DecidableEq, Repr

/-- Python `os.path.splitext(p)[1]`: the extension of the last path
component, empty when there is none; leading dots of the basename do
not start an extension. -/
def splitext_ext (p : String) : String :=
  let base := (p.toList.reverse.takeWhile (fun c => c ≠ '/')).reverse
  let rest := base.dropWhile (fun c => c = '.')
  if rest.contains '.' then
    String.mk ('.' :: (rest.reverse.takeWhile (fun c => c ≠ '.')).reverse)
  else ""

/-- Modelled from the spec: `io.get_files_from_dir` lives in `utils/io.py`,
which is not under src; per the spec it lists the immediate children of
the directory that bear a known container extension, in lexical order.
The directory contents are supplied explicitly as `listing`. -/
def get_files_from_dir (listing : List String) : List String :=
  (listing.filter
    (fun f => splitext_ext f = ".nc" ∨ splitext_ext f = ".zarr")).mergeSort
    (fun a b => a ≤ b)

/-- The value stored in a `_X_path` attribute after `_update_file_list`:
a single path string or a list of path strings. -/
inductive Resolved where
  | one (p : String)
  | many (ps : List String)
deriving DecidableEq, Repr

/-- `EchoDataBase._update_file_list(path, file_list)`, `echodata.py`
lines 211-232: a string with an empty extension is a directory to be
listed; a string with a `.nc`/`.zarr` extension is kept as a single
file path; any other string raises `ValueError`; a list is kept
verbatim; any other value raises `ValueError`. -/
def _update_file_list (listing : List String) : PathSpec → Except PyErr Resolved
  | .pstr s =>
      let ext := splitext_ext s
      if ext = "" then .ok (.many (get_files_from_dir listing))
      else if ext = ".nc" ∨ ext = ".zarr" then .ok (.one s)
      else .error (.valueError "Unsupported file path")
  | .plist ps => .ok (.many ps)
  | _ => .error (.valueError "Unsupported file path")

/-- `EchoDataBase._update_data_pointer(path, arr_type)` restricted to
its path bookkeeping: `None` clears both the pointer and the path;
otherwise the path is resolved through `_update_file_list` and the
dataset pointer is lazily opened from the resolved files (the
`xr.open_mfdataset` call is an external collaborator, modelled as
succeeding on the resolved paths). -/
def _update_data_pointer (listing : List String) :
    PathSpec → Except PyErr (Option Resolved)
  | .pnone => .ok none
  | p => (_update_file_list listing p).map some

/-- `EchoDataBase._set_file_format`, `echodata.py` lines 250-254: it
calls `self.raw_path.endswith(...)`; only a string has an `endswith`
method, so a `None`- or list-valued `raw_path` raises `AttributeError`,
while a string with neither recognized suffix just leaves the format
unset. -/
def _set_file_format : Option Resolved → Except PyErr (Option String)
  | some (.one s) =>
      .ok (if s.endsWith ".nc" then some "netcdf"
           else if s.endsWith ".zarr" then some "zarr"
           else none)
  | some (.many _) => .error (.attributeError "endswith")
  | none => .error (.attributeError "endswith")

/-- The attributes of an `EchoDataBase` instance used here: the
resolved path and the lazily opened dataset pointer for each logical
product, and the detected file format. -/
structure EchoDataState where
  _raw_path : Option Resolved
  _Sv_path : Option Resolved
  _Sv_clean_path : Option Resolved
  _TS_path : Option Resolved
  _MVBS_path : Option Resolved
  _raw : Option Resolved
  _Sv : Option Resolved
  _Sv_clean : Option Resolved
  _TS : Option Resolved
  _MVBS : Option Resolved
  _file_format : Option String
deriving DecidableEq, Repr

/-- `EchoDataBase.__init__`, `echodata.py` lines 20-61: assigns the five
path properties (each running `_update_data_pointer`) and then calls
`_set_file_format` on the resolved raw path. -/
def EchoDataBase_init (listing : List String)
    (raw_path Sv_path Sv_clean_path TS_path MVBS_path : PathSpec) :
    Except PyErr EchoDataState := do
  let rp ← _update_data_pointer listing raw_path
  let sv ← _update_data_pointer listing Sv_path
  let svc ← _update_data_pointer listing Sv_clean_path
  let ts ← _update_data_pointer listing TS_path
  let mv ← _update_data_pointer listing MVBS_path
  let fmt ← _set_file_format rp
  return ⟨rp, sv, svc, ts, mv, rp, sv, svc, ts, mv, fmt⟩

/-- The message printed by the derived-data property getters when the
pointer is unset. -/
def calibrateMsg : String :=
  "Data has not been calibrated. Call `Process.calibrate(EchoData)` to calibrate."

/-- The body shared by the `Sv`, `Sv_clean`, `TS` and `MVBS` property
getters, `echodata.py` lines 63-116: when the pointer is unset, print
the not-yet-calibrated message and fall through (returning `None`);
otherwise return the dataset. The getter never raises. -/
def derived_view_get (v : Option Resolved) : Option Resolved × List String :=
  match v with
  | none => (none, [calibrateMsg])
  | some x => (some x, [])

/-- The `EchoDataBase.Sv` property getter. -/
def EchoDataBase_Sv (st : EchoDataState) : Option Resolved × List String :=
  derived_view_get st._Sv

/-- The `EchoDataBase.Sv_clean` property getter. -/
def EchoDataBase_Sv_clean (st : EchoDataState) : Option Resolved × List String :=
  derived_view_get st._Sv_clean

/-- The `EchoDataBase.TS` property getter. -/
def EchoDataBase_TS (st : EchoDataState) : Option Resolved × List String :=
  derived_view_get st._TS

/-- The `EchoDataBase.MVBS` property getter. -/
def EchoDataBase_MVBS (st : EchoDataState) : Option Resolved × List String :=
  derived_view_get st._MVBS

/-- C1 counterexample: on an EK60 combine call the groups are not written
in the claimed sequence TopLevel, Sonar, Provenance, Environment, Beam,
Platform, Platform/NMEA, Vendor — the source writes `Beam` (line 91)
before `Environment` (line 99). -/
theorem combine_group_order_counterexample :
    ¬ ((combineWrites "EK60").map WriteEvent.group =
      [none, some "Sonar", some "Provenance", some "Environment", some "Beam",
       some "Platform", some "Platform/NMEA", some "Vendor"]) := by decide

/-- C1 (amended): for every combine call on a recognized model the groups
are processed and written in the fixed sequence TopLevel, Sonar,
Provenance, Beam, Environment, Platform, Platform/NMEA (if present for
the model), Vendor, the output container being created (mode `'w'`) for
the first group and appended to (mode `'a'`) for every later one. -/
theorem combine_group_order (m : String)
    (h : m ∈ ["EK60", "EK80", "EA640", "AZFP"]) :
    (combineWrites m).map WriteEvent.mode =
      Mode.w :: List.replicate ((combineWrites m).length - 1) Mode.a
    ∧ (combineWrites m).map WriteEvent.group =
        [none, some "Sonar", some "Provenance", some "Beam", some "Environment",
         some "Platform"]
        ++ (if m = "AZFP" then [] else [some "Platform/NMEA"])
        ++ [some "Vendor"] := by
  fin_cases h <;> exact ⟨by decide, by decide⟩

/-- Witness for `combine_group_order` at the concrete model EK60. -/
theorem combine_group_order_witness :
    (combineWrites "EK60").map WriteEvent.mode =
      Mode.w :: List.replicate ((combineWrites "EK60").length - 1) Mode.a :=
  (combine_group_order "EK60" (by decide)).1

/-- C3 counterexample: on an EK60 combine call the `location_time`
dimension is chunked at 2500 (the `DEFAULT_CHUNK_SIZE['ping_time']`
entry), not at the claimed 100. -/
theorem chunk_table_counterexample :
    ¬ (∀ e ∈ combineWrites "EK60", ∀ p ∈ e.chunks,
        (p.1 = "location_time" → p.2 = 100) ∧ (p.1 = "mru_time" → p.2 = 100)) := by
  decide

/-- C3 (amended): for every combine call on a recognized model the
chunk sizes applied before persisting are 25000 for `range_bin` and 2500
for every time-like dimension: `ping_time` on Beam and Environment, and
`location_time`/`mru_time`/`ping_time` on the model-dependent Platform
and Platform/NMEA groups; no dimension is chunked at 100. -/
theorem chunk_table (m : String) (h : m ∈ ["EK60", "EK80", "EA640", "AZFP"]) :
    ∀ e ∈ combineWrites m,
      e.chunks =
        (if e.group = some "Beam" then [("range_bin", 25000), ("ping_time", 2500)]
         else if e.group = some "Environment" then [("ping_time", 2500)]
         else if e.group = some "Platform" then
           (if m = "AZFP" then []
            else if m = "EK60" then [("location_time", 2500), ("ping_time", 2500)]
            else [("location_time", 2500), ("mru_time", 2500)])
         else if e.group = some "Platform/NMEA" then [("location_time", 2500)]
         else []) := by
  fin_cases h <;> decide

/-- Witness for `chunk_table` at the concrete model EK60 and the Beam
write event. -/
theorem chunk_table_witness :
    (⟨some "Beam", Mode.a, [("range_bin", 25000), ("ping_time", 2500)]⟩ :
      WriteEvent).chunks = [("range_bin", 25000), ("ping_time", 2500)] :=
  (chunk_table "EK60" (by decide)
    ⟨some "Beam", Mode.a, [("range_bin", 25000), ("ping_time", 2500)]⟩
    (by decide)).trans (by decide)

set_option maxRecDepth 4000 in
/-- C2 counterexample: on an EK80 combine call the Beam group is
coerced, contrary to the claim that no Beam text-field coercion applies
to EK80: a `transceiver_software_version` value of 12 characters is
truncated to 10 by the `astype` re-encoding. -/
theorem beam_coercion_counterexample :
    coerce_type "EK80"
        ⟨[("transceiver_software_version", ["v12345678901"]),
          ("channel_id", ["ch1"])]⟩ "Beam" =
      Except.ok
        ⟨[("transceiver_software_version", ["v123456789"]),
          ("channel_id", ["ch1"])]⟩
    ∧ coerce_type "EK80"
        ⟨[("transceiver_software_version", ["v12345678901"]),
          ("channel_id", ["ch1"])]⟩ "Beam" ≠
      Except.ok
        ⟨[("transceiver_software_version", ["v12345678901"]),
          ("channel_id", ["ch1"])]⟩ := by
  constructor <;> decide

set_option maxRecDepth 4000 in
/-- C2 (amended): before writing the combined Beam group, EK60 coerces
`gpt_software_version` to width 10 and `channel_id` to width 50, EK80
coerces `transceiver_software_version` to width 10 and `channel_id` to
width 50, and EA640 applies no Beam text-field coercion. -/
theorem beam_coercion (ds : BeamDS) :
    coerce_type "EA640" ds "Beam" = Except.ok ds
    ∧ (∀ g c, dsGet ds "gpt_software_version" = some g →
        dsGet ds "channel_id" = some c →
        coerce_type "EK60" ds "Beam" =
          Except.ok (dsSet (dsSet ds "gpt_software_version" (astypeU 10 g))
            "channel_id" (astypeU 50 c))
        ∧ ∀ k, dsGet (dsSet (dsSet ds "gpt_software_version" (astypeU 10 g))
            "channel_id" (astypeU 50 c)) k =
              if k = "gpt_software_version" then some (astypeU 10 g)
              else if k = "channel_id" then some (astypeU 50 c)
              else dsGet ds k)
    ∧ (∀ v c, dsGet ds "transceiver_software_version" = some v →
        dsGet ds "channel_id" = some c →
        coerce_type "EK80" ds "Beam" =
          Except.ok (dsSet (dsSet ds "transceiver_software_version" (astypeU 10 v))
            "channel_id" (astypeU 50 c))
        ∧ ∀ k, dsGet (dsSet (dsSet ds "transceiver_software_version" (astypeU 10 v))
            "channel_id" (astypeU 50 c)) k =
              if k = "transceiver_software_version" then some (astypeU 10 v)
              else if k = "channel_id" then some (astypeU 50 c)
              else dsGet ds k) := by
  refine ⟨rfl, ?_, ?_⟩
  · intro g c hg hc
    constructor
    · simp [coerce_type, hg, hc, dsGet_dsSet]
    · intro k
      by_cases h1 : k = "gpt_software_version"
      · subst h1
        simp [dsGet_dsSet, hg]
      · by_cases h2 : k = "channel_id"
        · subst h2
          simp [dsGet_dsSet, hc]
        · simp [dsGet_dsSet, h1, h2]
  · intro v c hv hc
    constructor
    · simp [coerce_type, hv, hc, dsGet_dsSet]
    · intro k
      by_cases h1 : k = "transceiver_software_version"
      · subst h1
        simp [dsGet_dsSet, hv]
      · by_cases h2 : k = "channel_id"
        · subst h2
          simp [dsGet_dsSet, hc]
        · simp [dsGet_dsSet, h1, h2]

/-- Witness for `beam_coercion` at a concrete EK60 Beam dataset: a
14-character software version is truncated to 10 characters and the
channel id (shorter than 50) is kept as is. -/
theorem beam_coercion_witness :
    coerce_type "EK60"
        ⟨[("gpt_software_version", ["versionstring14"]),
          ("channel_id", ["ch1"])]⟩ "Beam" =
      Except.ok (dsSet (dsSet
        ⟨[("gpt_software_version", ["versionstring14"]), ("channel_id", ["ch1"])]⟩
        "gpt_software_version" (astypeU 10 ["versionstring14"]))
        "channel_id" (astypeU 50 ["ch1"])) :=
  ((beam_coercion _).2.1 ["versionstring14"] ["ch1"] (by decide) (by decide)).1

/-- C4: merging the Platform groups of a nonempty list of AZFP input
containers succeeds, producing the shared group, exactly when all the
groups are identical; it fails with `ConflictingMetadata` as soon as any
two of them differ in any attribute or variable value. -/
theorem azfp_platform_identical_merge (dss : List PlatDS) (h : dss ≠ []) :
    ((∀ x ∈ dss, ∀ y ∈ dss, x = y) →
      ∃ d ∈ dss, open_mfdataset_identical dss = Except.ok d ∧ ∀ x ∈ dss, x = d)
    ∧ ((∃ x ∈ dss, ∃ y ∈ dss, x ≠ y) →
      open_mfdataset_identical dss = Except.error CombineError.conflictingMetadata) := by
  match dss with
  | [] => exact absurd rfl h
  | d :: rest =>
    constructor
    · intro hall
      refine ⟨d, List.mem_cons_self d rest, ?_,
        fun x hx => hall x hx d (List.mem_cons_self d rest)⟩
      have hcond : rest.all (fun x => x = d) = true := by
        simp only [List.all_eq_true, decide_eq_true_eq]
        exact fun x hx => hall x (List.mem_cons_of_mem d hx) d (List.mem_cons_self d rest)
      simp [open_mfdataset_identical, hcond]
    · rintro ⟨x, hx, y, hy, hxy⟩
      have hcond : ¬rest.all (fun x => x = d) = true := by
        simp only [List.all_eq_true, decide_eq_true_eq]
        intro hall
        have hx2 : x = d := by
          rcases List.mem_cons.mp hx with h1 | h1
          · exact h1
          · exact hall x h1
        have hy2 : y = d := by
          rcases List.mem_cons.mp hy with h1 | h1
          · exact h1
          · exact hall y h1
        exact hxy (hx2.trans hy2.symm)
      simp [open_mfdataset_identical, hcond]

/-- Witness for `azfp_platform_identical_merge` at two concrete AZFP
Platform groups differing in one attribute value. -/
theorem azfp_platform_identical_merge_witness :
    open_mfdataset_identical
        [⟨[("platform_name", AttrVal.s "saildrone")], [("temperature", [12])]⟩,
         ⟨[("platform_name", AttrVal.s "mooring")], [("temperature", [12])]⟩] =
      Except.error CombineError.conflictingMetadata :=
  (azfp_platform_identical_merge _ (by decide)).2
    ⟨⟨[("platform_name", AttrVal.s "saildrone")], [("temperature", [12])]⟩, by decide,
     ⟨[("platform_name", AttrVal.s "mooring")], [("temperature", [12])]⟩, by decide,
     by decide⟩

/-- C5: for every wall-clock instant and every list of source paths the
provenance synthesizer succeeds and produces an empty dataset whose
attributes are exactly the tool name, the tool version string, the UTC
creation timestamp in second-precision ISO format with the trailing
UTC marker `Z`, and the source path list exactly as provided, in the
caller order, without canonicalization. -/
theorem provenance_attrs (now : UtcTime) (paths : List String) :
    (assemble_combined_provenance now paths).vars = []
    ∧ (assemble_combined_provenance now paths).attrs =
        [("conversion_software_name", AttrVal.s "echopype"),
         ("conversion_software_version", AttrVal.s ECHOPYPE_VERSION),
         ("conversion_time", AttrVal.s (isoformatSeconds now ++ "Z")),
         ("src_filenames", AttrVal.slist paths)]
    ∧ (assemble_combined_provenance now paths).attrs.map Prod.fst =
        ["conversion_software_name", "conversion_software_version",
         "conversion_time", "src_filenames"] :=
  ⟨rfl, rfl, rfl⟩

/-- C10: for every sonar model outside AZFP, EK80, EA640, EK60, a combine
call writes no Platform and no Platform/NMEA group and raises no error:
the trace is exactly TopLevel, Sonar, Provenance, Beam, Environment,
Vendor, the other groups being combined as usual. -/
theorem unknown_model_skips_platform (m : String)
    (h : m ∉ ["AZFP", "EK80", "EA640", "EK60"]) :
    combineWrites m =
      [⟨none, Mode.w, []⟩,
       ⟨some "Sonar", Mode.a, []⟩,
       ⟨some "Provenance", Mode.a, []⟩,
       ⟨some "Beam", Mode.a, [("range_bin", 25000), ("ping_time", 2500)]⟩,
       ⟨some "Environment", Mode.a, [("ping_time", 2500)]⟩,
       ⟨some "Vendor", Mode.a, []⟩] := by
  simp only [List.mem_cons, List.not_mem_nil, or_false, not_or] at h
  obtain ⟨h1, h2, h3, h4⟩ := h
  simp [combineWrites, h1, h2, h3, h4, dget, DEFAULT_CHUNK_SIZE]

/-- Witness for `unknown_model_skips_platform` at the concrete
unrecognized model string EK500. -/
theorem unknown_model_skips_platform_witness :
    combineWrites "EK500" =
      [⟨none, Mode.w, []⟩,
       ⟨some "Sonar", Mode.a, []⟩,
       ⟨some "Provenance", Mode.a, []⟩,
       ⟨some "Beam", Mode.a, [("range_bin", 25000), ("ping_time", 2500)]⟩,
       ⟨some "Environment", Mode.a, [("ping_time", 2500)]⟩,
       ⟨some "Vendor", Mode.a, []⟩] :=
  unknown_model_skips_platform "EK500" (by decide)

/-- C7: a string path ending in a recognized container extension
resolves to that single file; a string with no extension resolves to
the directory listing filtered to container files in lexical order; an
explicit list is preserved verbatim in caller order; a string with an
unrecognized extension, like a value that is neither a string nor a
list, is rejected with the unsupported-path error. -/
theorem path_resolution (listing : List String) :
    (∀ s, splitext_ext s = ".nc" ∨ splitext_ext s = ".zarr" →
      _update_file_list listing (PathSpec.pstr s) = Except.ok (Resolved.one s))
    ∧ (∀ s, splitext_ext s = "" →
      _update_file_list listing (PathSpec.pstr s) =
        Except.ok (Resolved.many (get_files_from_dir listing)))
    ∧ List.Pairwise (fun a b => a ≤ b) (get_files_from_dir listing)
    ∧ List.Perm (get_files_from_dir listing)
        (listing.filter (fun f => splitext_ext f = ".nc" ∨ splitext_ext f = ".zarr"))
    ∧ (∀ ps, _update_file_list listing (PathSpec.plist ps) =
        Except.ok (Resolved.many ps))
    ∧ (∀ s, splitext_ext s ≠ "" → splitext_ext s ≠ ".nc" → splitext_ext s ≠ ".zarr" →
      _update_file_list listing (PathSpec.pstr s) =
        Except.error (PyErr.valueError "Unsupported file path"))
    ∧ _update_file_list listing PathSpec.pother =
        Except.error (PyErr.valueError "Unsupported file path")
    ∧ _update_file_list listing PathSpec.pnone =
        Except.error (PyErr.valueError "Unsupported file path") := by
  refine ⟨?_, ?_, ?_, ?_, ?_, ?_, rfl, rfl⟩
  · intro s h
    rcases h with h | h <;> simp [_update_file_list, h]
  · intro s h
    simp [_update_file_list, h]
  · have hs := @List.sorted_mergeSort String
      (fun a b : String => decide (a ≤ b))
      (fun a b c hab hbc =>
        decide_eq_true (le_trans (of_decide_eq_true hab) (of_decide_eq_true hbc)))
      (fun a b => by simpa using le_total a b)
      (listing.filter (fun f => splitext_ext f = ".nc" ∨ splitext_ext f = ".zarr"))
    exact hs.imp (fun h => of_decide_eq_true h)
  · exact List.mergeSort_perm _ _
  · intro ps
    rfl
  · intro s h1 h2 h3
    simp [_update_file_list, h1, h2, h3]

/-- Witness for `path_resolution`: the extensionless string `survey`
resolves to the filtered, lexically sorted directory listing. -/
theorem path_resolution_witness :
    _update_file_list ["b.zarr", "a.nc", "notes.txt"] (PathSpec.pstr "survey") =
      Except.ok (Resolved.many (get_files_from_dir ["b.zarr", "a.nc", "notes.txt"])) :=
  (path_resolution ["b.zarr", "a.nc", "notes.txt"]).2.1 "survey" (by decide)

/-- C8: on every EchoData object whose `Sv`, `Sv_clean`, `TS` or `MVBS`
pointer is unset, reading the corresponding property returns the
absent value `None` together with the printed not-yet-calibrated
message; the getter is a total function, so no exception is raised. -/
theorem derived_view_unset_signal (st : EchoDataState) :
    (st._Sv = none → EchoDataBase_Sv st = (none, [calibrateMsg]))
    ∧ (st._Sv_clean = none → EchoDataBase_Sv_clean st = (none, [calibrateMsg]))
    ∧ (st._TS = none → EchoDataBase_TS st = (none, [calibrateMsg]))
    ∧ (st._MVBS = none → EchoDataBase_MVBS st = (none, [calibrateMsg])) := by
  refine ⟨fun h => ?_, fun h => ?_, fun h => ?_, fun h => ?_⟩ <;>
    simp [EchoDataBase_Sv, EchoDataBase_Sv_clean, EchoDataBase_TS, EchoDataBase_MVBS,
      derived_view_get, h]

/-- Witness for `derived_view_unset_signal` at the all-unset state. -/
theorem derived_view_unset_signal_witness :
    EchoDataBase_Sv ⟨none, none, none, none, none, none, none, none, none, none, none⟩ =
      (none, [calibrateMsg]) :=
  (derived_view_unset_signal
    ⟨none, none, none, none, none, none, none, none, none, none, none⟩).1 rfl

/-- C9: constructing an `EchoDataBase` (all other path arguments at
their `None` defaults) completes only when the raw path resolves to a
single string path; whenever the resolved raw path is `None` or a list
(the default `raw_path=None`, an explicit list, or a directory path that
resolves to a list), `__init__` raises the `AttributeError` from
`_set_file_format`, because the resolved value has no `endswith`
method. -/
theorem init_requires_string_path (listing : List String) (raw : PathSpec) :
    (∀ st, EchoDataBase_init listing raw PathSpec.pnone PathSpec.pnone
        PathSpec.pnone PathSpec.pnone = Except.ok st →
      ∃ s, st._raw_path = some (Resolved.one s) ∧ st._raw = some (Resolved.one s))
    ∧ (∀ r, _update_data_pointer listing raw = Except.ok r →
        (∀ s, r ≠ some (Resolved.one s)) →
        EchoDataBase_init listing raw PathSpec.pnone PathSpec.pnone
          PathSpec.pnone PathSpec.pnone =
          Except.error (PyErr.attributeError "endswith")) := by
  constructor
  · intro st hok
    rw [EchoDataBase_init] at hok
    cases hra : _update_data_pointer listing raw with
    | error e =>
      rw [hra] at hok
      simp [bind, Except.bind] at hok
    | ok r =>
      rw [hra] at hok
      match r with
      | none =>
        simp [bind, Except.bind, _update_data_pointer, _set_file_format,
          Functor.map, Except.map] at hok
      | some (Resolved.many ps) =>
        simp [bind, Except.bind, _update_data_pointer, _set_file_format,
          Functor.map, Except.map] at hok
      | some (Resolved.one s) =>
        simp only [bind, Except.bind, _update_data_pointer, _set_file_format,
          Functor.map, Except.map, pure, Except.pure, Except.ok.injEq] at hok
        exact ⟨s, by rw [← hok], by rw [← hok]⟩
  · intro r hra hnot
    rw [EchoDataBase_init, hra]
    match r with
    | none =>
      simp [bind, Except.bind, _update_data_pointer, _set_file_format,
        Functor.map, Except.map]
    | some (Resolved.many ps) =>
      simp [bind, Except.bind, _update_data_pointer, _set_file_format,
        Functor.map, Except.map]
    | some (Resolved.one s) =>
      exact absurd rfl (hnot s)

/-- C6 counterexample: at the in-range timestamp 6311433599999979
microseconds after the 1900 epoch (2099-12-31T23:59:59.999979), the
conversion pipeline recovers 6311433599999978 — one microsecond short:
the nanosecond count 6311433599999979000 lies in the binade of
`2 ^ 62` where the int64-to-double cast alone can lose up to 512
nanoseconds, breaking the half-microsecond margin. -/
theorem datetime_roundtrip_counterexample :
    (6311433599999979 : ℕ) ≤ microsUpper
    ∧ denormalizeMicros (normalizeTime 6311433599999979) = (6311433599999978 : ℤ)
    ∧ (6311433599999978 : ℤ) ≠ ((6311433599999979 : ℕ) : ℤ) := by
  refine ⟨by norm_num [microsUpper], ?_, by norm_num⟩
  have hcast : ((6311433599999979 : ℕ) : ℚ) = (6311433599999979 : ℚ) := by
    norm_num
  have h1 : roundDouble (1000 * (6311433599999979 : ℚ)) = 6311433599999978496 := by
    have h62 : (2 : ℚ) ^ (62 : ℤ) = 4611686018427387904 := by norm_num
    have h63 : (2 : ℚ) ^ ((62 : ℤ) + 1) = 9223372036854775808 := by norm_num
    have he : qexp (1000 * (6311433599999979 : ℚ)) = 62 :=
      qexp_eq_of _ (by norm_num) 62 (by rw [h62]; norm_num) (by rw [h63]; norm_num)
    rw [roundDouble, if_neg (by norm_num), he]
    have hz1 : (2 : ℚ) ^ ((52 : ℤ) - 62) = (1024 : ℚ)⁻¹ := by
      rw [show ((52 : ℤ) - 62) = (-10 : ℤ) by norm_num, zpow_neg]
      norm_num
    have hz2 : (2 : ℚ) ^ ((62 : ℤ) - 52) = 1024 := by
      rw [show ((62 : ℤ) - 52) = (10 : ℤ) by norm_num]
      norm_num
    have hfl : round (1000 * (6311433599999979 : ℚ) * (1024 : ℚ)⁻¹) =
        6163509374999979 := by
      rw [round_eq]
      norm_num
    rw [hz1, hz2, hfl]
    norm_num
  have h2 : roundDouble ((6311433599999978496 : ℚ) / 10 ^ 9) =
      6618017798553577 / 2 ^ 20 := by
    have h32 : (2 : ℚ) ^ (32 : ℤ) = 4294967296 := by norm_num
    have h33 : (2 : ℚ) ^ ((32 : ℤ) + 1) = 8589934592 := by norm_num
    have he : qexp ((6311433599999978496 : ℚ) / 10 ^ 9) = 32 :=
      qexp_eq_of _ (by norm_num) 32 (by rw [h32]; norm_num) (by rw [h33]; norm_num)
    rw [roundDouble, if_neg (by norm_num), he]
    have hz1 : (2 : ℚ) ^ ((52 : ℤ) - 32) = 1048576 := by
      rw [show ((52 : ℤ) - 32) = (20 : ℤ) by norm_num]
      norm_num
    have hz2 : (2 : ℚ) ^ ((32 : ℤ) - 52) = (1048576 : ℚ)⁻¹ := by
      rw [show ((32 : ℤ) - 52) = (-20 : ℤ) by norm_num, zpow_neg]
      norm_num
    have hfl : round ((6311433599999978496 : ℚ) / 10 ^ 9 * 1048576) =
        6618017798553577 := by
      rw [round_eq]
      norm_num
    rw [hz1, hz2, hfl]
    norm_num
  rw [normalizeTime, hcast, h1, h2, denormalizeMicros, round_eq]
  norm_num

/-- C6 (amended): for every timestamp between 1900-01-01 and
2036-02-07T06:28:16 (while the count of seconds since the 1900 epoch
stays below `2 ^ 32`), converting it to a binary64 count of seconds
since 1900-01-01T00:00:00 UTC and applying the inverse transform
(adding the epoch offset back, read at microsecond resolution) recovers
the original timestamp exactly: the cast of the nanosecond count loses
at most 256 ns and the final rounding at most `2 ^ -22` s, together
under half a microsecond. Past that bound the pipeline can be off by
one microsecond, as the counterexample shows. -/
theorem datetime_roundtrip_micros (t : ℕ) (ht : t ≤ microsSafeUpper) :
    denormalizeMicros (normalizeTime t) = (t : ℤ) := by
  rcases Nat.eq_zero_or_pos t with h0 | hpos
  · subst h0
    simp [normalizeTime, denormalizeMicros, roundDouble]
  · have htq : (0 : ℚ) < (t : ℚ) := by exact_mod_cast hpos
    have hape : (0 : ℚ) < 1000 * (t : ℚ) := by linarith
    set a : ℚ := 1000 * (t : ℚ) with hadef
    have ha_le : a ≤ 4294967295999999000 := by
      rw [hadef]
      have htle : (t : ℚ) ≤ 4294967295999999 := by
        have hl : (t : ℚ) ≤ (microsSafeUpper : ℚ) := by exact_mod_cast ht
        simpa [microsSafeUpper] using hl
      linarith
    have ha_lt : a < (2 : ℚ) ^ (62 : ℤ) := by
      have h62 : (2 : ℚ) ^ (62 : ℤ) = 4611686018427387904 := by norm_num
      rw [h62]
      linarith
    have hqa : qexp a ≤ 61 := by
      have := qexp_lt_of_lt a hape 62 ha_lt
      omega
    have herr1 : |roundDouble a - a| ≤ (2 : ℚ) ^ (8 : ℤ) := by
      refine le_trans (roundDouble_err a hape) ?_
      exact zpow_le_zpow_right₀ (by norm_num) (by omega)
    have h8 : (2 : ℚ) ^ (8 : ℤ) = 256 := by norm_num
    set b : ℚ := roundDouble a with hbdef
    have hb_pos : 0 < b := by
      have habs := (abs_le.mp herr1).1
      rw [h8] at habs
      have ha1000 : (1000 : ℚ) ≤ a := by
        rw [hadef]
        have : (1 : ℚ) ≤ (t : ℚ) := by exact_mod_cast hpos
        linarith
      linarith
    set y : ℚ := b / 10 ^ 9 with hydef
    have hy_pos : 0 < y := div_pos hb_pos (by norm_num)
    have hyq : |y - a / 10 ^ 9| ≤ 256 / 10 ^ 9 := by
      have hdiff : y - a / 10 ^ 9 = (b - a) / 10 ^ 9 := by
        rw [hydef]
        ring
      rw [hdiff, abs_div, abs_of_pos (show (0 : ℚ) < 10 ^ 9 by norm_num)]
      gcongr
      rw [← h8]
      exact herr1
    have hy_lt : y < (2 : ℚ) ^ (32 : ℤ) := by
      have h32 : (2 : ℚ) ^ (32 : ℤ) = 4294967296 := by norm_num
      rw [h32]
      have hy1 : y ≤ a / 10 ^ 9 + 256 / 10 ^ 9 := by
        have := (abs_le.mp hyq).2
        linarith
      have hy2 : a / 10 ^ 9 ≤ 4294967295999999000 / 10 ^ 9 := by gcongr
      have hy3 : (4294967295999999000 : ℚ) / 10 ^ 9 + 256 / 10 ^ 9 <
          4294967296 := by norm_num
      linarith
    have hqy : qexp y ≤ 31 := by
      have := qexp_lt_of_lt y hy_pos 32 hy_lt
      omega
    have herr2 : |roundDouble y - y| ≤ (2 : ℚ) ^ (-22 : ℤ) := by
      refine le_trans (roundDouble_err y hy_pos) ?_
      exact zpow_le_zpow_right₀ (by norm_num) (by omega)
    have hq6 : a / 10 ^ 9 * 10 ^ 6 = (t : ℚ) := by
      rw [hadef]
      field_simp
      ring
    have hlt : |roundDouble y * 10 ^ 6 - (t : ℚ)| < 1 / 2 := by
      have hs1 : |roundDouble y - a / 10 ^ 9| ≤ (2 : ℚ) ^ (-22 : ℤ) + 256 / 10 ^ 9 := by
        calc |roundDouble y - a / 10 ^ 9|
            = |(roundDouble y - y) + (y - a / 10 ^ 9)| := by ring_nf
          _ ≤ |roundDouble y - y| + |y - a / 10 ^ 9| := abs_add _ _
          _ ≤ (2 : ℚ) ^ (-22 : ℤ) + 256 / 10 ^ 9 := add_le_add herr2 hyq
      have hdiff : roundDouble y * 10 ^ 6 - (t : ℚ)
          = (roundDouble y - a / 10 ^ 9) * 10 ^ 6 := by
        rw [sub_mul, hq6]
      rw [hdiff, abs_mul, abs_of_pos (show (0 : ℚ) < 10 ^ 6 by norm_num)]
      have h22 : (2 : ℚ) ^ (-22 : ℤ) = (4194304 : ℚ)⁻¹ := by
        rw [zpow_neg]
        norm_num
      calc |roundDouble y - a / 10 ^ 9| * 10 ^ 6
          ≤ ((2 : ℚ) ^ (-22 : ℤ) + 256 / 10 ^ 9) * 10 ^ 6 :=
            mul_le_mul_of_nonneg_right hs1 (by norm_num)
        _ < 1 / 2 := by
            rw [h22]
            norm_num
    rw [denormalizeMicros, normalizeTime, ← hadef, ← hbdef, ← hydef, round_eq,
      Int.floor_eq_iff]
    obtain ⟨hlo, hhi⟩ := abs_lt.mp hlt
    constructor
    · push_cast
      linarith
    · push_cast
      linarith

/-- Witness for `datetime_roundtrip_micros` at the concrete timestamp
1234567 microseconds after the 1900 epoch. -/
theorem datetime_roundtrip_micros_witness :
    denormalizeMicros (normalizeTime 1234567) = (1234567 : ℤ) :=
  datetime_roundtrip_micros 1234567 (by decide)

/-- Witness for `init_requires_string_path` at the default construction
with `raw_path=None`. -/
theorem init_requires_string_path_witness :
    EchoDataBase_init [] PathSpec.pnone PathSpec.pnone PathSpec.pnone
        PathSpec.pnone PathSpec.pnone =
      Except.error (PyErr.attributeError "endswith") :=
  (init_requires_string_path [] PathSpec.pnone).2 none rfl
    (fun _ h => Option.noConfusion h)

end Echopype
